import Mathlib

/-!
Verification development for the AutoTrackerPy activity-accounting engine
(source: src/X11_active_window.py).

The Python source is shallowly embedded below.  Time instants are modelled
as integers (datetime instants are integer microseconds; one unit here is
one second of the idle-threshold arithmetic); each callback invocation ("tick") observes a single value of
the performance counter (perfNow) and a single value of the wall clock
(wallNow), standing for the values returned by time.perf_counter() and
datetime.datetime.now() during that invocation.  The process-wide mutable
globals become fields of explicit state records, and the Python dict
window_actives becomes an insertion-ordered association list, matching the
iteration order of a Python dict.
-/

set_option linter.unusedVariables false

/-- A closed activity interval (start, end), in seconds. -/
abbrev ActInterval := ℤ × ℤ

/-- The window_actives dict: title (None is a valid key) to list of intervals,
in insertion order. -/
abbrev Actives := List (Option String × List ActInterval)

/-- A persisted row of Activity.csv: (Title, Start, End). -/
abbrev Row := Option String × ℤ × ℤ

/-- Dictionary lookup on the association list. -/
def alookup : Actives → Option String → Option (List ActInterval)
  | [], _ => none
  | (k₀, v) :: rest, k => if k₀ = k then some v else alookup rest k

/-- The pattern `try: d[k].append(v) / except KeyError: d.update(\x7bk: []\x7d); d[k].append(v)`:
append v to the list at key k, creating the key (at the end, as dict.update does) if absent.
Keys are unique, as in a Python dict. -/
def appendAt : Actives → Option String → ActInterval → Actives
  | [], k, v => [(k, [v])]
  | (a, b) :: rest, k, v =>
    if a = k then (a, b ++ [v]) :: rest else (a, b) :: appendAt rest k v

/-- `d.update(\x7bk: v\x7d)`: set key k to v, creating the key at the end if absent. -/
def updateKey : Actives → Option String → List ActInterval → Actives
  | [], k, v => [(k, v)]
  | (a, b) :: rest, k, v =>
    if a = k then (a, v) :: rest else (a, b) :: updateKey rest k v

/-- The row set produced by the two nested loops of save_to_disk_thread.run:
for each title in dict order, for each (start, end) in list order, one row. -/
def activityRows (m : Actives) : List Row :=
  m.flatMap fun p => p.2.map fun iv => (p.1, iv.1, iv.2)

/-- `for title, time_list in d.items(): time_list.clear()` applied to a dict. -/
def clearAll (m : Actives) : Actives :=
  m.map fun p => (p.1, ([] : List ActInterval))

/-! ## Title resolution (Focus Resolver) -/

/-- Outcome of `win_obj.get_full_property(atom, 0)` for one title atom:
the property holds a (decoded) title, is absent or falsy, raises
UnicodeDecodeError, or raises XError. -/
inductive PropFetch where
  | found (s : String)
  | absent
  | decodeError
  | xerror
deriving DecidableEq, Repr

/-- One iteration of the `for atom in (NET_WM_NAME, WM_NAME)` loop of
_get_window_name_inner: either an early return with the window name (inl),
or an assignment to the local variable `title` (inr); XError propagates. -/
def nameStep : PropFetch → Except Unit (Sum String String)
  | .found s => .ok (.inl s)
  | .absent => .ok (.inr "<unnamed window>")
  | .decodeError => .ok (.inr "<could not decode characters>")
  | .xerror => .error ()

/-- _get_window_name_inner: try the UTF-8 atom, then the legacy atom, and
fall back to the formatted placeholder `title + " (XID: " + id + ")"`. -/
def _get_window_name_inner (utf8 legacy : PropFetch) (xid : Nat) :
    Except Unit String :=
  match nameStep utf8 with
  | .error e => .error e
  | .ok (.inl s) => .ok s
  | .ok (.inr _) =>
    match nameStep legacy with
    | .error e => .error e
    | .ok (.inl s) => .ok s
    | .ok (.inr title) => .ok (title ++ " (XID: " ++ toString xid ++ ")")

/-- The last_seen dict: cached window id and title. -/
structure LastSeen where
  xid : Option Nat
  title : Option String
deriving DecidableEq, Repr

/-- The external X11 state read by the resolver: the _NET_ACTIVE_WINDOW root
property, per-window title property fetch outcomes, and whether
create_resource_object yields a usable window object for an id. -/
structure XWorld where
  activeWindow : Option Nat
  utf8Title : Nat → PropFetch
  legacyTitle : Nat → PropFetch
  windowValid : Nat → Bool

/-- get_active_window: returns (win_id, focus_changed) and updates
last_seen.xid on a focus change.  The event-mask (un)subscription calls only
touch the X server and are not part of the embedded state. -/
def get_active_window (w : XWorld) (seen : LastSeen) :
    Option Nat × Bool × LastSeen :=
  match w.activeWindow with
  | none => (none, false, seen)
  | some win_id =>
    if some win_id = seen.xid then (some win_id, false, seen)
    else (some win_id, true, { seen with xid := some win_id })

/-- get_window_name: returns (title, title_changed) and updates
last_seen.title.  `if not win_id` treats both None and the X id 0 as "no
window"; an XError from the inner resolver is swallowed (`pass`). -/
def get_window_name (w : XWorld) (win_id : Option Nat) (seen : LastSeen) :
    Option String × Bool × LastSeen :=
  match win_id with
  | none => (none, true, { seen with title := none })
  | some id =>
    if id = 0 then (none, true, { seen with title := none })
    else if w.windowValid id then
      match _get_window_name_inner (w.utf8Title id) (w.legacyTitle id) id with
      | .error _ => (seen.title, false, seen)
      | .ok win_title =>
        if some win_title = seen.title then
          (some win_title, false, { seen with title := some win_title })
        else
          (some win_title, true, { seen with title := some win_title })
    else (seen.title, false, seen)

/-! ## Title Change Signal (handle_xevent) -/

/-- The three property atoms the dispatcher knows, plus anything else. -/
inductive XAtom where
  | netActiveWindow
  | netWmName
  | wmName
  | otherAtom
deriving DecidableEq, Repr

/-- The event type: PropertyNotify or anything else. -/
inductive XEventType where
  | propertyNotify
  | otherType
deriving DecidableEq, Repr

/-- An incoming X event, as far as handle_xevent inspects it. -/
structure XEvent where
  type : XEventType
  atom : XAtom
deriving DecidableEq, Repr

/-- handle_xevent: returns the updated last_seen together with the number of
handle_change calls made while processing this one event. -/
def handle_xevent (w : XWorld) (ev : XEvent) (seen : LastSeen) :
    LastSeen × Nat :=
  match ev.type with
  | .otherType => (seen, 0)
  | .propertyNotify =>
    match ev.atom with
    | .netActiveWindow =>
      let r := get_active_window w seen
      if r.2.1 then
        let g := get_window_name w r.2.2.xid r.2.2
        (g.2.2, 1)
      else (r.2.2, 0)
    | .netWmName =>
      let g := get_window_name w seen.xid seen
      (g.2.2, if g.2.1 then 1 else 0)
    | .wmName =>
      let g := get_window_name w seen.xid seen
      (g.2.2, if g.2.1 then 1 else 0)
    | .otherAtom => (seen, 0)

/-- Process a whole sequence of raw X notifications, accumulating the total
number of handle_change calls. -/
def handle_many (w : XWorld) (seen : LastSeen) (evs : List XEvent) :
    LastSeen × Nat :=
  evs.foldl
    (fun acc ev =>
      let r := handle_xevent w ev acc.1
      (r.1, acc.2 + r.2))
    (seen, 0)

/-- The tracked window (nonzero id) is the active one and the cached title
agrees with what resolving it again would produce: processing further
notifications changes nothing. -/
def consistentSeen (w : XWorld) (seen : LastSeen) : Prop :=
  ∃ id : Nat, seen.xid = some id ∧ id ≠ 0 ∧ w.activeWindow = some id ∧
    (w.windowValid id = true →
      ∀ s : String,
        _get_window_name_inner (w.utf8Title id) (w.legacyTitle id) id
          = Except.ok s →
        seen.title = some s)

/-! ## Startup priming (window_focus_thread.__init__) -/

/-- The state produced by window_focus_thread.__init__. -/
structure InitResult where
  last_seen : LastSeen
  window_actives : Actives
  current_title : Option String
deriving Repr

/-- window_focus_thread.__init__: prime last_seen from the active window,
set current_title from it, and register an empty interval list for it. -/
def window_focus_thread_init (w : XWorld) (seen : LastSeen)
    (actives : Actives) : InitResult :=
  let a := get_active_window w seen
  let g := get_window_name w a.1 a.2.2
  { last_seen := g.2.2
    window_actives := updateKey actives g.2.2.title []
    current_title := g.2.2.title }

/-! ## Accounting state machine (check_if_device_active) -/

/-- The process-wide globals read and written by check_if_device_active. -/
structure DeviceState where
  prev_device_time : ℤ
  prev_device_counter : ℤ
  start_device_time : ℤ
  prev_title : Option String
  current_title : Option String
  window_actives : Actives
deriving DecidableEq

/-- First block of check_if_device_active
(`if current_title != prev_title:`): close an interval for the previous
title, with end capped at prev_device_time + 10 when the perf-clock gap
exceeds 5 seconds, then move prev_title to the current title. -/
def titleChangeStep (perfNow wallNow : ℤ) (s : DeviceState) : DeviceState :=
  if s.current_title ≠ s.prev_title then
    if perfNow - s.prev_device_counter > 5 then
      { s with
        window_actives :=
          appendAt s.window_actives s.prev_title
            (s.start_device_time, s.prev_device_time + 10)
        prev_device_counter := perfNow
        prev_device_time := wallNow
        start_device_time := wallNow
        prev_title := s.current_title }
    else
      { s with
        window_actives :=
          appendAt s.window_actives s.prev_title
            (s.start_device_time, wallNow)
        prev_device_counter := perfNow
        prev_device_time := wallNow
        start_device_time := wallNow
        prev_title := s.current_title }
  else s

/-- Second block of check_if_device_active
(`if current_title == prev_title:`): on an idle gap, close a capped interval
for the current title and reset all markers; otherwise just refresh
prev_device_counter and prev_device_time. -/
def sameTitleStep (perfNow wallNow : ℤ) (s : DeviceState) : DeviceState :=
  if s.current_title = s.prev_title then
    if perfNow - s.prev_device_counter > 5 then
      { s with
        window_actives :=
          appendAt s.window_actives s.current_title
            (s.start_device_time, s.prev_device_time + 10)
        prev_device_counter := perfNow
        prev_device_time := wallNow
        start_device_time := wallNow }
    else
      { s with
        prev_device_counter := perfNow
        prev_device_time := wallNow }
  else s

/-- check_if_device_active: one invocation of the record-extension callback,
running both blocks in order.  perfNow and wallNow stand for the values of
time.perf_counter() and datetime.datetime.now() during this invocation. -/
def check_if_device_active (perfNow wallNow : ℤ) (s : DeviceState) :
    DeviceState :=
  sameTitleStep perfNow wallNow (titleChangeStep perfNow wallNow s)

/-- One observed input event: handle_change may have updated current_title
since the last event (newTitle = some t), then the callback runs at the
given clock readings. -/
structure TickEvent where
  newTitle : Option (Option String)
  perfNow : ℤ
  wallNow : ℤ

/-- Apply one event: install the new current title if any, then run
check_if_device_active. -/
def applyEvent (s : DeviceState) (e : TickEvent) : DeviceState :=
  check_if_device_active e.perfNow e.wallNow
    { s with current_title := e.newTitle.getD s.current_title }

/-- Run a whole sequence of events. -/
def runEvents (s : DeviceState) (es : List TickEvent) : DeviceState :=
  es.foldl applyEvent s

/-- Well-formedness of one title's interval list, relative to an upper bound
on its starts: every interval is properly ordered and starts are
non-decreasing. -/
def intervalsOK (bound : ℤ) (l : List ActInterval) : Prop :=
  (∀ p ∈ l, p.1 ≤ p.2) ∧
  List.Chain' (fun a b : ActInterval => a.1 ≤ b.1) l ∧
  (∀ p ∈ l, p.1 ≤ bound)

/-- Machine-state invariant: the open segment start is no later than the
last recorded input time, and every recorded interval list is well formed
with starts bounded by the current segment start. -/
def goodState (s : DeviceState) : Prop :=
  s.start_device_time ≤ s.prev_device_time ∧
  ∀ k l, alookup s.window_actives k = some l →
    intervalsOK s.start_device_time l

/-! ## Flush (save_to_disk_thread.run) -/

/-- Result of one save_to_disk_thread.run invocation: the contents of
Activity.csv afterwards (none = the file still does not exist), the live
window_actives afterwards, and whether an exception escaped the run. -/
structure FlushOutcome where
  store : Option (List Row)
  window_actives : Actives
  raised : Bool
deriving DecidableEq

/-- save_to_disk_thread.run.  memPercent is psutil memory_percent() of the
main process; store is the current Activity.csv contents; loadOk / saveOk
tell whether pd.read_csv / DataFrame.to_csv succeed.  Faithful to the
source: the rows are built from a deep copy of window_actives, and the
subsequent clear is applied to the lists of that copy, which is then
discarded - the live window_actives is never modified. -/
def save_to_disk_run (memPercent : ℤ) (store : Option (List Row))
    (loadOk saveOk : Bool) (actives : Actives) : FlushOutcome :=
  if memPercent > 1 then
    match store with
    | some rows =>
      if loadOk then
        let df := rows ++ activityRows actives
        let _cleared := clearAll actives
        if saveOk then
          { store := some df, window_actives := actives, raised := false }
        else
          { store := some rows, window_actives := actives, raised := true }
      else
        { store := some rows, window_actives := actives, raised := true }
    | none =>
      let df := ([] : List Row) ++ activityRows actives
      let _cleared := clearAll actives
      if saveOk then
        { store := some df, window_actives := actives, raised := false }
      else
        { store := none, window_actives := actives, raised := true }
  else
    { store := store, window_actives := actives, raised := false }

/-! ## Helper lemmas about the dictionary operations -/

theorem alookup_appendAt_self (m : Actives) (k : Option String) (v : ActInterval) :
    alookup (appendAt m k v) k = some ((alookup m k).getD [] ++ [v]) := by
  induction m with
  | nil => simp [alookup, appendAt]
  | cons p rest ih =>
    obtain ⟨a, b⟩ := p
    by_cases h : a = k
    · simp [alookup, appendAt, h]
    · simp [alookup, appendAt, h, ih]

theorem alookup_appendAt_ne (m : Actives) (k : Option String) (v : ActInterval)
    (k' : Option String) (h : k' ≠ k) :
    alookup (appendAt m k v) k' = alookup m k' := by
  induction m with
  | nil => simp [alookup, appendAt, Ne.symm h]
  | cons p rest ih =>
    obtain ⟨a, b⟩ := p
    by_cases h2 : a = k
    · subst h2
      simp [alookup, appendAt, Ne.symm h]
    · by_cases h3 : a = k' <;> simp [alookup, appendAt, h2, h3, ih, h]

/-! ## Helper lemmas about interval-list well-formedness -/

theorem chain'_append_one {α : Type} (R : α → α → Prop) (l : List α) (v : α)
    (hc : List.Chain' R l) (hall : ∀ p ∈ l, R p v) :
    List.Chain' R (l ++ [v]) := by
  rw [List.chain'_append]
  refine ⟨hc, List.chain'_singleton v, ?_⟩
  intro x hx y hy
  simp only [List.head?_cons, Option.mem_def, Option.some.injEq] at hy
  subst hy
  obtain ⟨hne, hx'⟩ := List.mem_getLast?_eq_getLast hx
  subst hx'
  exact hall _ (List.getLast_mem hne)

theorem intervalsOK_mono (b b' : ℤ) (l : List ActInterval)
    (h : intervalsOK b l) (hb : b ≤ b') : intervalsOK b' l :=
  ⟨h.1, h.2.1, fun p hp => le_trans (h.2.2 p hp) hb⟩

theorem intervalsOK_snoc (b : ℤ) (l : List ActInterval) (v : ActInterval)
    (h : intervalsOK b l) (hv : v.1 ≤ v.2) (hb : b ≤ v.1) :
    intervalsOK v.1 (l ++ [v]) := by
  refine ⟨?_, ?_, ?_⟩
  · intro p hp
    rcases List.mem_append.1 hp with hp | hp
    · exact h.1 p hp
    · rcases List.mem_singleton.1 hp with rfl
      exact hv
  · exact chain'_append_one _ l v h.2.1 fun p hp => le_trans (h.2.2 p hp) hb
  · intro p hp
    rcases List.mem_append.1 hp with hp | hp
    · exact le_trans (h.2.2 p hp) hb
    · rcases List.mem_singleton.1 hp with rfl
      exact le_refl _

theorem intervalsOK_single (b : ℤ) (v : ActInterval)
    (hv : v.1 ≤ v.2) (hb : v.1 ≤ b) : intervalsOK b [v] := by
  refine ⟨?_, List.chain'_singleton v, ?_⟩ <;>
    intro p hp <;> rcases List.mem_singleton.1 hp with rfl
  · exact hv
  · exact hb

theorem goodAux_append (m : Actives) (k : Option String)
    (start₀ wallNow e : ℤ)
    (hm : ∀ k' l, alookup m k' = some l → intervalsOK start₀ l)
    (hsw : start₀ ≤ wallNow) (he : start₀ ≤ e) :
    ∀ k' l, alookup (appendAt m k (start₀, e)) k' = some l →
      intervalsOK wallNow l := by
  intro k' l hl
  by_cases hk : k' = k
  · subst hk
    rw [alookup_appendAt_self] at hl
    cases hold : alookup m k' with
    | none =>
      rw [hold] at hl
      simp only [Option.getD_none, List.nil_append, Option.some.injEq] at hl
      subst hl
      exact intervalsOK_single wallNow _ he hsw
    | some l₀ =>
      rw [hold] at hl
      simp only [Option.getD_some, Option.some.injEq] at hl
      subst hl
      exact intervalsOK_mono _ _ _
        (intervalsOK_snoc start₀ l₀ (start₀, e) (hm k' l₀ hold) he (le_refl _)) hsw
  · rw [alookup_appendAt_ne m k _ k' hk] at hl
    exact intervalsOK_mono _ _ _ (hm k' l hl) hsw

/-! ## Preservation lemmas for the accounting machine -/

theorem titleChangeStep_good (perfNow wallNow : ℤ) (s : DeviceState)
    (hg : goodState s) (hw : s.prev_device_time ≤ wallNow) :
    goodState (titleChangeStep perfNow wallNow s) ∧
    (titleChangeStep perfNow wallNow s).prev_device_time ≤ wallNow := by
  unfold titleChangeStep
  split_ifs with h1 h2
  · refine ⟨⟨le_refl _, ?_⟩, le_refl _⟩
    exact goodAux_append s.window_actives s.prev_title s.start_device_time
      wallNow (s.prev_device_time + 10) hg.2 (le_trans hg.1 hw)
      (le_trans hg.1 (by linarith))
  · refine ⟨⟨le_refl _, ?_⟩, le_refl _⟩
    exact goodAux_append s.window_actives s.prev_title s.start_device_time
      wallNow wallNow hg.2 (le_trans hg.1 hw) (le_trans hg.1 hw)
  · exact ⟨hg, hw⟩

theorem sameTitleStep_good (perfNow wallNow : ℤ) (s : DeviceState)
    (hg : goodState s) (hw : s.prev_device_time ≤ wallNow) :
    goodState (sameTitleStep perfNow wallNow s) ∧
    (sameTitleStep perfNow wallNow s).prev_device_time ≤ wallNow := by
  unfold sameTitleStep
  split_ifs with h1 h2
  · refine ⟨⟨le_refl _, ?_⟩, le_refl _⟩
    exact goodAux_append s.window_actives s.current_title s.start_device_time
      wallNow (s.prev_device_time + 10) hg.2 (le_trans hg.1 hw)
      (le_trans hg.1 (by linarith))
  · exact ⟨⟨le_trans hg.1 hw, fun k l hl =>
      intervalsOK_mono _ _ _ (hg.2 k l hl) (le_refl _)⟩, le_refl _⟩
  · exact ⟨hg, hw⟩

theorem check_good (perfNow wallNow : ℤ) (s : DeviceState)
    (hg : goodState s) (hw : s.prev_device_time ≤ wallNow) :
    goodState (check_if_device_active perfNow wallNow s) ∧
    (check_if_device_active perfNow wallNow s).prev_device_time ≤ wallNow := by
  have h1 := titleChangeStep_good perfNow wallNow s hg hw
  exact sameTitleStep_good perfNow wallNow _ h1.1 h1.2

theorem chain_le_of_le {b a : ℤ} {l : List ℤ} (hba : b ≤ a)
    (h : List.Chain (· ≤ ·) a l) : List.Chain (· ≤ ·) b l := by
  cases l with
  | nil => exact List.Chain.nil
  | cons c t =>
    rw [List.chain_cons] at h ⊢
    exact ⟨le_trans hba h.1, h.2⟩

theorem runEvents_good (es : List TickEvent) (s : DeviceState)
    (hg : goodState s)
    (hc : List.Chain (· ≤ ·) s.prev_device_time (es.map TickEvent.wallNow)) :
    goodState (runEvents s es) := by
  induction es generalizing s with
  | nil => exact hg
  | cons e rest ih =>
    rw [List.map_cons, List.chain_cons] at hc
    have hg' : goodState { s with current_title := e.newTitle.getD s.current_title } := hg
    have step := check_good e.perfNow e.wallNow
      { s with current_title := e.newTitle.getD s.current_title } hg' hc.1
    rw [runEvents, List.foldl_cons]
    exact ih _ step.1 (chain_le_of_le step.2 hc.2)

theorem titleChangeStep_id (perfNow wallNow : ℤ) (s : DeviceState)
    (hs : s.current_title = s.prev_title) :
    titleChangeStep perfNow wallNow s = s := by
  unfold titleChangeStep
  rw [if_neg (not_not_intro hs)]

theorem check_no_append (perfNow wallNow : ℤ) (s : DeviceState)
    (hs : s.current_title = s.prev_title)
    (hgap : ¬ perfNow - s.prev_device_counter > 5) :
    (check_if_device_active perfNow wallNow s).window_actives
      = s.window_actives := by
  unfold check_if_device_active
  rw [titleChangeStep_id perfNow wallNow s hs]
  unfold sameTitleStep
  rw [if_pos hs, if_neg hgap]

/-! ## Shape lemmas for the two blocks of check_if_device_active -/

theorem titleChangeStep_change_idle (perfNow wallNow : ℤ) (s : DeviceState)
    (hs : s.current_title ≠ s.prev_title)
    (hgap : perfNow - s.prev_device_counter > 5) :
    titleChangeStep perfNow wallNow s =
      { s with
        window_actives :=
          appendAt s.window_actives s.prev_title
            (s.start_device_time, s.prev_device_time + 10)
        prev_device_counter := perfNow
        prev_device_time := wallNow
        start_device_time := wallNow
        prev_title := s.current_title } := by
  unfold titleChangeStep
  rw [if_pos hs, if_pos hgap]

theorem titleChangeStep_change_cont (perfNow wallNow : ℤ) (s : DeviceState)
    (hs : s.current_title ≠ s.prev_title)
    (hgap : ¬ perfNow - s.prev_device_counter > 5) :
    titleChangeStep perfNow wallNow s =
      { s with
        window_actives :=
          appendAt s.window_actives s.prev_title
            (s.start_device_time, wallNow)
        prev_device_counter := perfNow
        prev_device_time := wallNow
        start_device_time := wallNow
        prev_title := s.current_title } := by
  unfold titleChangeStep
  rw [if_pos hs, if_neg hgap]

theorem sameTitleStep_idle (perfNow wallNow : ℤ) (s : DeviceState)
    (hs : s.current_title = s.prev_title)
    (hgap : perfNow - s.prev_device_counter > 5) :
    sameTitleStep perfNow wallNow s =
      { s with
        window_actives :=
          appendAt s.window_actives s.current_title
            (s.start_device_time, s.prev_device_time + 10)
        prev_device_counter := perfNow
        prev_device_time := wallNow
        start_device_time := wallNow } := by
  unfold sameTitleStep
  rw [if_pos hs, if_pos hgap]

theorem sameTitleStep_refresh (perfNow wallNow : ℤ) (s : DeviceState)
    (hs : s.current_title = s.prev_title)
    (hgap : ¬ perfNow - s.prev_device_counter > 5) :
    sameTitleStep perfNow wallNow s =
      { s with
        prev_device_counter := perfNow
        prev_device_time := wallNow } := by
  unfold sameTitleStep
  rw [if_pos hs, if_neg hgap]

theorem check_idle_append (perfNow wallNow : ℤ) (s : DeviceState)
    (hgap : perfNow - s.prev_device_counter > 5) :
    alookup (check_if_device_active perfNow wallNow s).window_actives
        s.prev_title
      = some ((alookup s.window_actives s.prev_title).getD []
          ++ [(s.start_device_time, s.prev_device_time + 10)]) := by
  unfold check_if_device_active
  by_cases hs : s.current_title = s.prev_title
  · rw [titleChangeStep_id _ _ _ hs, sameTitleStep_idle _ _ _ hs hgap, hs]
    exact alookup_appendAt_self _ _ _
  · rw [titleChangeStep_change_idle _ _ _ hs hgap]
    rw [sameTitleStep_refresh _ _ _ rfl (by simp)]
    exact alookup_appendAt_self _ _ _

theorem check_change_cont (perfNow wallNow : ℤ) (s : DeviceState)
    (hs : s.current_title ≠ s.prev_title)
    (hgap : ¬ perfNow - s.prev_device_counter > 5) :
    alookup (check_if_device_active perfNow wallNow s).window_actives
        s.prev_title
      = some ((alookup s.window_actives s.prev_title).getD []
          ++ [(s.start_device_time, wallNow)]) := by
  unfold check_if_device_active
  rw [titleChangeStep_change_cont _ _ _ hs hgap]
  rw [sameTitleStep_refresh _ _ _ rfl (by simp)]
  exact alookup_appendAt_self _ _ _

/-! ## Dedup lemmas for the Title Change Signal -/

theorem lastSeen_title_update (seen : LastSeen) (t : Option String)
    (h : seen.title = t) : ({ seen with title := t } : LastSeen) = seen := by
  cases seen
  subst h
  rfl

theorem get_window_name_consistent (w : XWorld) (id : Nat) (seen : LastSeen)
    (h0 : id ≠ 0)
    (htitle : w.windowValid id = true →
      ∀ s : String,
        _get_window_name_inner (w.utf8Title id) (w.legacyTitle id) id
          = Except.ok s →
        seen.title = some s) :
    get_window_name w (some id) seen = (seen.title, false, seen) := by
  show (if id = 0 then (none, true, { seen with title := none })
    else if w.windowValid id then
      match _get_window_name_inner (w.utf8Title id) (w.legacyTitle id) id with
      | .error _ => (seen.title, false, seen)
      | .ok win_title =>
        if some win_title = seen.title then
          (some win_title, false, { seen with title := some win_title })
        else
          (some win_title, true, { seen with title := some win_title })
    else (seen.title, false, seen)) = (seen.title, false, seen)
  rw [if_neg h0]
  cases hv : w.windowValid id with
  | false => simp [hv]
  | true =>
    simp only [hv, if_true]
    cases hi : _get_window_name_inner (w.utf8Title id) (w.legacyTitle id) id with
    | error e => simp [hi]
    | ok t =>
      have ht := htitle hv t hi
      simp only [hi]
      rw [if_pos ht.symm, lastSeen_title_update seen (some t) ht, ht]

theorem handle_xevent_consistent (w : XWorld) (seen : LastSeen) (ev : XEvent)
    (hc : consistentSeen w seen) : handle_xevent w ev seen = (seen, 0) := by
  obtain ⟨id, hxid, h0, hact, htitle⟩ := hc
  obtain ⟨ty, atom⟩ := ev
  cases ty with
  | otherType => rfl
  | propertyNotify =>
    cases atom with
    | netActiveWindow =>
      simp [handle_xevent, get_active_window, hact, hxid]
    | netWmName =>
      simp only [handle_xevent]
      rw [hxid, get_window_name_consistent w id seen h0 htitle]
      simp
    | wmName =>
      simp only [handle_xevent]
      rw [hxid, get_window_name_consistent w id seen h0 htitle]
      simp
    | otherAtom => rfl

theorem handle_xevent_le_one (w : XWorld) (ev : XEvent) (seen : LastSeen) :
    (handle_xevent w ev seen).2 ≤ 1 := by
  obtain ⟨ty, atom⟩ := ev
  cases ty with
  | otherType => simp [handle_xevent]
  | propertyNotify =>
    cases atom with
    | netActiveWindow =>
      dsimp only [handle_xevent]
      split <;> simp
    | netWmName =>
      dsimp only [handle_xevent]
      split <;> simp
    | wmName =>
      dsimp only [handle_xevent]
      split <;> simp
    | otherAtom => simp [handle_xevent]

theorem handle_many_consistent (w : XWorld) (seen : LastSeen)
    (evs : List XEvent) (hc : consistentSeen w seen) :
    handle_many w seen evs = (seen, 0) := by
  unfold handle_many
  induction evs with
  | nil => rfl
  | cons e rest ih =>
    rw [List.foldl_cons]
    simp only [handle_xevent_consistent w seen e hc]
    simpa using ih

/-! ## Claim theorems -/

/-- C2: on every accounting tick whose perf-clock gap since the last tick
exceeds 5 seconds - title-change tick or per-input-event tick alike - the
interval closed and appended for the previous title ends exactly at
prev_device_time + 10, the last recorded input time plus ten seconds, never
at the wall-clock time of the triggering event. -/
theorem c2_idle_cap (perfNow wallNow : ℤ) (s : DeviceState)
    (hgap : perfNow - s.prev_device_counter > 5) :
    alookup (check_if_device_active perfNow wallNow s).window_actives
        s.prev_title
      = some ((alookup s.window_actives s.prev_title).getD []
          ++ [(s.start_device_time, s.prev_device_time + 10)]) :=
  check_idle_append perfNow wallNow s hgap

/-- Witness for C2, the simulated clock of the specification: last tick and
last input at t = 2 with the open segment started at t = 0, next tick at
t = 20: the closed interval is (0, 12), not (0, 20). -/
theorem c2_idle_cap_witness :
    alookup (check_if_device_active 20 20
        { prev_device_time := 2, prev_device_counter := 2
          start_device_time := 0, prev_title := some "A"
          current_title := some "A"
          window_actives := [(some "A", [])] }).window_actives (some "A")
      = some [((0 : ℤ), (12 : ℤ))] ∧ (12 : ℤ) ≠ 20 := by
  have h := c2_idle_cap 20 20
    { prev_device_time := 2, prev_device_counter := 2
      start_device_time := 0, prev_title := some "A"
      current_title := some "A"
      window_actives := [(some "A", [])] } (by decide)
  refine ⟨?_, by decide⟩
  rw [h]
  decide

/-- C3: on a title-change tick whose perf-clock gap is at most 5 seconds,
the interval closed for the previous title is exactly
(start_device_time, wallNow): its end is the timestamp of the tick itself. -/
theorem c3_continue_case (perfNow wallNow : ℤ) (s : DeviceState)
    (hne : s.current_title ≠ s.prev_title)
    (hgap : ¬ perfNow - s.prev_device_counter > 5) :
    alookup (check_if_device_active perfNow wallNow s).window_actives
        s.prev_title
      = some ((alookup s.window_actives s.prev_title).getD []
          ++ [(s.start_device_time, wallNow)]) :=
  check_change_cont perfNow wallNow s hne hgap

/-- Witness for C3, the example of the specification: tick at t = 0, title
change at t = 3: the closed interval is (0, 3). -/
theorem c3_continue_case_witness :
    alookup (check_if_device_active 3 3
        { prev_device_time := 0, prev_device_counter := 0
          start_device_time := 0, prev_title := some "A"
          current_title := some "B"
          window_actives := [(some "A", [])] }).window_actives (some "A")
      = some [((0 : ℤ), (3 : ℤ))] := by
  have h := c3_continue_case 3 3
    { prev_device_time := 0, prev_device_counter := 0
      start_device_time := 0, prev_title := some "A"
      current_title := some "B"
      window_actives := [(some "A", [])] } (by decide) (by decide)
  rw [h]
  decide

/-- C5: starting from a well-formed machine state, after any sequence of
ticks whose wall-clock readings are non-decreasing, every interval list in
window_actives has end at least start in each interval and its starts in
non-decreasing order. -/
theorem c5_interval_invariants (s : DeviceState) (es : List TickEvent)
    (hg : goodState s)
    (hc : List.Chain (· ≤ ·) s.prev_device_time (es.map TickEvent.wallNow))
    (k : Option String) (l : List ActInterval)
    (hl : alookup (runEvents s es).window_actives k = some l) :
    (∀ p ∈ l, p.1 ≤ p.2) ∧
    List.Chain' (fun a b : ActInterval => a.1 ≤ b.1) l := by
  have hgood := runEvents_good es s hg hc
  exact ⟨(hgood.2 k l hl).1, (hgood.2 k l hl).2.1⟩

/-- Witness for C5: a concrete two-tick run (an idle title change at t = 6,
then a quiet refresh at t = 7) whose single recorded list is well formed. -/
theorem c5_interval_invariants_witness :
    (∀ p ∈ [((0 : ℤ), (10 : ℤ))], p.1 ≤ p.2) ∧
    List.Chain' (fun a b : ActInterval => a.1 ≤ b.1) [((0 : ℤ), (10 : ℤ))] :=
  c5_interval_invariants
    { prev_device_time := 0, prev_device_counter := 0
      start_device_time := 0, prev_title := none
      current_title := some "None", window_actives := [] }
    [{ newTitle := some (some "A"), perfNow := 6, wallNow := 6 },
     { newTitle := none, perfNow := 7, wallNow := 7 }]
    ⟨le_refl 0, fun k l h => nomatch h⟩
    (List.Chain.cons (by decide) (List.Chain.cons (by decide) List.Chain.nil))
    none [((0 : ℤ), (10 : ℤ))] (by decide)

theorem init_editor (w : XWorld) (id : Nat)
    (hw : w.activeWindow = some id) (h0 : id ≠ 0)
    (hv : w.windowValid id = true)
    (ht : _get_window_name_inner (w.utf8Title id) (w.legacyTitle id) id
      = Except.ok "Editor") :
    window_focus_thread_init w ⟨none, none⟩ [] =
      { last_seen := ⟨some id, some "Editor"⟩
        window_actives := [(some "Editor", [])]
        current_title := some "Editor" } := by
  have ha : get_active_window w ⟨none, none⟩
      = (some id, true, ⟨some id, none⟩) := by
    simp [get_active_window, hw]
  have hgn : get_window_name w (some id) ⟨some id, none⟩
      = (some "Editor", true, ⟨some id, some "Editor"⟩) := by
    simp [get_window_name, h0, hv, ht]
  unfold window_focus_thread_init
  rw [ha]
  dsimp only
  rw [hgn]
  rfl

/-- C6 (refuting evaluation): window_focus_thread.__init__ with an
already-focused window resolving to "Editor" does set the cursor to
"Editor" and register an empty interval list for it - the true part of the
claim - but it never assigns prev_title, which keeps its module-load value
None; so the very next input tick, one second later with the window
unchanged and a perf gap of 1 (not idle), takes the branch where
current_title differs from prev_title and appends (start_device_time, now)
under key None: an interval is closed before any real title change or idle
tick, contradicting the last part of the claim. -/
theorem c6_startup_priming_spurious_append :
    (window_focus_thread_init
        ⟨some 5, fun _ => .found "Editor", fun _ => .absent, fun _ => true⟩
        ⟨none, none⟩ []).current_title = some "Editor" ∧
    (window_focus_thread_init
        ⟨some 5, fun _ => .found "Editor", fun _ => .absent, fun _ => true⟩
        ⟨none, none⟩ []).window_actives = [(some "Editor", [])] ∧
    (check_if_device_active 1 1
        { prev_device_time := 0, prev_device_counter := 0
          start_device_time := 0
          prev_title := none
          current_title :=
            (window_focus_thread_init
                ⟨some 5, fun _ => .found "Editor", fun _ => .absent,
                 fun _ => true⟩
                ⟨none, none⟩ []).current_title
          window_actives :=
            (window_focus_thread_init
                ⟨some 5, fun _ => .found "Editor", fun _ => .absent,
                 fun _ => true⟩
                ⟨none, none⟩ []).window_actives }).window_actives
      = [(some "Editor", []), (none, [((0 : ℤ), (1 : ℤ))])] :=
  ⟨by decide, by decide, by decide⟩

theorem flush_pressure_eq (memPercent : ℤ) (store : Option (List Row))
    (actives : Actives) (hm : memPercent > 1) :
    save_to_disk_run memPercent store true true actives =
      { store := some (store.getD [] ++ activityRows actives)
        window_actives := actives
        raised := false } := by
  unfold save_to_disk_run
  rw [if_pos hm]
  cases store with
  | none => simp
  | some rows => simp

/-- C7: a flush invocation whose memory pressure does not exceed the 1
percent threshold leaves both the live window_actives and the durable store
unchanged and raises nothing. -/
theorem c7_flush_no_pressure (memPercent : ℤ) (store : Option (List Row))
    (loadOk saveOk : Bool) (actives : Actives)
    (h : ¬ memPercent > 1) :
    save_to_disk_run memPercent store loadOk saveOk actives
      = { store := store, window_actives := actives, raised := false } := by
  unfold save_to_disk_run
  rw [if_neg h]

/-- Witness for C7: pressure exactly at the threshold (1 percent, not
above), a nonempty log and an existing store are both left unchanged. -/
theorem c7_flush_no_pressure_witness :
    save_to_disk_run 1 (some [(some "B", 3, 4)]) true true
        [(some "A", [((0 : ℤ), (1 : ℤ))])]
      = { store := some [(some "B", 3, 4)]
          window_actives := [(some "A", [((0 : ℤ), (1 : ℤ))])]
          raised := false } :=
  c7_flush_no_pressure 1 (some [(some "B", 3, 4)]) true true
    [(some "A", [((0 : ℤ), (1 : ℤ))])] (by decide)

/-- C8: whenever a flush invocation raises (the load of the store or the
save to it fails), the live window_actives is exactly what it was before:
no sequence is cleared and no accounted interval is lost. -/
theorem c8_flush_failure_preserves_log (memPercent : ℤ)
    (store : Option (List Row)) (loadOk saveOk : Bool) (actives : Actives)
    (h : (save_to_disk_run memPercent store loadOk saveOk actives).raised
      = true) :
    (save_to_disk_run memPercent store loadOk saveOk actives).window_actives
      = actives := by
  unfold save_to_disk_run
  by_cases hm : memPercent > 1
  · rw [if_pos hm]
    cases store with
    | none => split_ifs <;> rfl
    | some rows => split_ifs <;> rfl
  · rw [if_neg hm]

/-- Witness for C8: a pressured flush whose load fails leaves the single
accounted interval in place. -/
theorem c8_flush_failure_preserves_log_witness :
    (save_to_disk_run 2 (some []) false true
        [(some "A", [((0 : ℤ), (1 : ℤ))])]).window_actives
      = [(some "A", [((0 : ℤ), (1 : ℤ))])] :=
  c8_flush_failure_preserves_log 2 (some []) false true
    [(some "A", [((0 : ℤ), (1 : ℤ))])] (by decide)

/-- C10: a pressured, successful flush leaves the live window_actives
mapping unchanged - the clear acts on the deep copy - and appends the whole
current contents to the store, so a second pressured flush on the unchanged
log appends every one of those intervals to the store again. -/
theorem c10_flush_leaves_live_log (memPercent : ℤ)
    (store : Option (List Row)) (actives : Actives) (hm : memPercent > 1) :
    (save_to_disk_run memPercent store true true actives).window_actives
      = actives ∧
    (save_to_disk_run memPercent store true true actives).store
      = some (store.getD [] ++ activityRows actives) ∧
    (save_to_disk_run memPercent
        (save_to_disk_run memPercent store true true actives).store
        true true actives).store
      = some ((store.getD [] ++ activityRows actives)
          ++ activityRows actives) := by
  refine ⟨by rw [flush_pressure_eq memPercent store actives hm], 
    by rw [flush_pressure_eq memPercent store actives hm], ?_⟩
  rw [flush_pressure_eq memPercent store actives hm]
  rw [flush_pressure_eq memPercent
    (some (store.getD [] ++ activityRows actives)) actives hm]
  rfl

/-- Witness for C10: a double flush at pressure 2 percent on the same
one-interval log duplicates the row in the store while the log keeps its
interval. -/
theorem c10_flush_leaves_live_log_witness :
    (save_to_disk_run 2 none true true
        [(some "A", [((0 : ℤ), (1 : ℤ))])]).window_actives
      = [(some "A", [((0 : ℤ), (1 : ℤ))])] ∧
    (save_to_disk_run 2 none true true
        [(some "A", [((0 : ℤ), (1 : ℤ))])]).store
      = some ((none : Option (List Row)).getD []
          ++ activityRows [(some "A", [((0 : ℤ), (1 : ℤ))])]) ∧
    (save_to_disk_run 2
        (save_to_disk_run 2 none true true
          [(some "A", [((0 : ℤ), (1 : ℤ))])]).store
        true true [(some "A", [((0 : ℤ), (1 : ℤ))])]).store
      = some (((none : Option (List Row)).getD []
            ++ activityRows [(some "A", [((0 : ℤ), (1 : ℤ))])])
          ++ activityRows [(some "A", [((0 : ℤ), (1 : ℤ))])]) :=
  c10_flush_leaves_live_log 2 none [(some "A", [((0 : ℤ), (1 : ℤ))])]
    (by decide)

/-- C1 (refuting evaluation): at a pressured, successful flush over the
one-interval log, the rows do reach the store, but the live window_actives
still holds its interval afterwards - it is not the cleared mapping, because
save_to_disk_thread.run clears only the lists of its deep copy. -/
theorem c1_flush_not_drained :
    (save_to_disk_run 2 none true true
        [(some "A", [((0 : ℤ), (1 : ℤ))])]).window_actives
      = [(some "A", [((0 : ℤ), (1 : ℤ))])] ∧
    (save_to_disk_run 2 none true true
        [(some "A", [((0 : ℤ), (1 : ℤ))])]).store
      = some [(some "A", (0 : ℤ), (1 : ℤ))] ∧
    [(some "A", [((0 : ℤ), (1 : ℤ))])]
      ≠ clearAll [(some "A", [((0 : ℤ), (1 : ℤ))])] :=
  ⟨by decide, by decide, by decide⟩

/-- C4 (counterexample): with no window tracked and no active window - and
the world unchanged - a WM_NAME property notification still triggers one
handle_change call, although neither the active window nor the title
actually changed (last_seen is returned unchanged). -/
theorem c4_dedup_counterexample :
    (handle_xevent
        ⟨none, fun _ => .absent, fun _ => .absent, fun _ => false⟩
        ⟨.propertyNotify, .wmName⟩ ⟨none, none⟩).1
      = (⟨none, none⟩ : LastSeen) ∧
    (handle_xevent
        ⟨none, fun _ => .absent, fun _ => .absent, fun _ => false⟩
        ⟨.propertyNotify, .wmName⟩ ⟨none, none⟩).2 = 1 :=
  ⟨rfl, rfl⟩

/-- C4 (amended): while a window with nonzero id is tracked, is the active
one, and its cached title agrees with what resolution would produce, any
sequence of raw notifications triggers zero handle_change calls and leaves
last_seen unchanged; and any single notification triggers at most one
handle_change call.  (Title-property notifications arriving while no window
- or window id 0 - is tracked re-signal the absent title each time.) -/
theorem c4_dedup_amended (w : XWorld) (seen : LastSeen) (evs : List XEvent)
    (w' : XWorld) (ev : XEvent) (s : LastSeen)
    (hc : consistentSeen w seen) :
    handle_many w seen evs = (seen, 0) ∧ (handle_xevent w' ev s).2 ≤ 1 :=
  ⟨handle_many_consistent w seen evs hc, handle_xevent_le_one w' ev s⟩

/-- Witness for C4: the tracked Editor window absorbs an active-window and
two title notifications with zero signals, and a notification against
another state signals at most once. -/
theorem c4_dedup_witness :
    handle_many
        ⟨some 5, fun _ => .found "Editor", fun _ => .absent, fun _ => true⟩
        ⟨some 5, some "Editor"⟩
        [⟨.propertyNotify, .netActiveWindow⟩, ⟨.propertyNotify, .wmName⟩,
         ⟨.propertyNotify, .netWmName⟩]
      = (⟨some 5, some "Editor"⟩, 0) ∧
    (handle_xevent
        ⟨some 5, fun _ => .found "Editor", fun _ => .absent, fun _ => true⟩
        ⟨.propertyNotify, .netActiveWindow⟩ ⟨none, none⟩).2 ≤ 1 :=
  c4_dedup_amended
    ⟨some 5, fun _ => .found "Editor", fun _ => .absent, fun _ => true⟩
    ⟨some 5, some "Editor"⟩
    [⟨.propertyNotify, .netActiveWindow⟩, ⟨.propertyNotify, .wmName⟩,
     ⟨.propertyNotify, .netWmName⟩]
    ⟨some 5, fun _ => .found "Editor", fun _ => .absent, fun _ => true⟩
    ⟨.propertyNotify, .netActiveWindow⟩ ⟨none, none⟩
    ⟨5, rfl, by decide, rfl,
      fun _ s hs => congrArg some (Except.ok.inj hs)⟩

/-- C9 (counterexample): when neither title property yields a title, the
resolver returns "<unnamed window> (XID: 7)" for window 7, which is not the
string "<unnamed window>" + " (" + handle-id + ")" stated by the claim: the
parenthesis carries an "XID: " prefix. -/
theorem c9_placeholder_counterexample :
    _get_window_name_inner .absent .absent 7
      = Except.ok "<unnamed window> (XID: 7)" ∧
    "<unnamed window> (XID: 7)"
      ≠ "<unnamed window>" ++ " (" ++ toString 7 ++ ")" :=
  ⟨rfl, by decide⟩

/-- C9 (amended): title resolution never propagates a decode failure: as
long as neither property fetch raises XError it returns a string; when both
properties are absent the result is "<unnamed window>" ++ " (XID: " ++
handle-id ++ ")", and when both raise decode errors the result is
"<could not decode characters>" ++ " (XID: " ++ handle-id ++ ")". -/
theorem c9_placeholder_amended (xid : Nat) (u l : PropFetch)
    (hu : u ≠ PropFetch.xerror) (hl : l ≠ PropFetch.xerror) :
    (∃ s : String, _get_window_name_inner u l xid = Except.ok s) ∧
    (u = PropFetch.absent → l = PropFetch.absent →
      _get_window_name_inner u l xid
        = Except.ok ("<unnamed window>" ++ " (XID: " ++ toString xid ++ ")")) ∧
    (u = PropFetch.decodeError → l = PropFetch.decodeError →
      _get_window_name_inner u l xid
        = Except.ok ("<could not decode characters>" ++ " (XID: "
            ++ toString xid ++ ")")) := by
  refine ⟨?_, ?_, ?_⟩
  · cases u with
    | xerror => exact absurd rfl hu
    | found s => exact ⟨s, rfl⟩
    | absent =>
      cases l with
      | xerror => exact absurd rfl hl
      | found s => exact ⟨s, rfl⟩
      | absent => exact ⟨_, rfl⟩
      | decodeError => exact ⟨_, rfl⟩
    | decodeError =>
      cases l with
      | xerror => exact absurd rfl hl
      | found s => exact ⟨s, rfl⟩
      | absent => exact ⟨_, rfl⟩
      | decodeError => exact ⟨_, rfl⟩
  · intro h1 h2
    subst h1
    subst h2
    rfl
  · intro h1 h2
    subst h1
    subst h2
    rfl

/-- Witness for C9: both title properties absent on window 7 yields the
unnamed-window fallback with the XID parenthesis. -/
theorem c9_placeholder_witness :
    _get_window_name_inner PropFetch.absent PropFetch.absent 7
      = Except.ok ("<unnamed window>" ++ " (XID: " ++ toString 7 ++ ")") :=
  (c9_placeholder_amended 7 PropFetch.absent PropFetch.absent
    (by decide) (by decide)).2.1 rfl rfl
